import Mathlib

/-
Verification of the pixel-format description and image-container subsystem of
the Magnum graphics middleware repository.

The development shallowly embeds:
  * the generic pixel-format enumeration and the generic-to-GL mapping table
    (src/unnamed/part_001, Magnum/GL/Implementation/pixelFormatMapping.hpp);
  * the exhaustive mapping-verification scan of
    Magnum::GL::Test::PixelFormatTest::mapFormatType (src/unnamed/part_000);
  * the wrap/unwrap/is-implementation-specific encoding of format identifiers
    and the pixelSize function; their definitions live in Magnum/PixelFormat.h,
    which is not part of the source snapshot, so they are modelled from the
    specification (each such definition carries a doc comment saying so);
  * the storage layout arithmetic (Magnum/PixelStorage.h, also absent from the
    snapshot, modelled from the specification);
  * the Image / ImageView / CompressedImage containers, their buffer-size
    validation asserts, release() and the move constructor
    (src/src/Magnum/Image.h and the appended Image.cpp / ImageView.cpp
    translation units).
-/

/-- Generic pixel format enumeration, Magnum::PixelFormat. The enumerator names
are taken from the mapping table src/unnamed/part_001; the defining header
Magnum/PixelFormat.h is not part of the snapshot. -/
inductive PixelFormat where
  | R8Unorm | RG8Unorm | RGB8Unorm | RGBA8Unorm
  | R8Snorm | RG8Snorm | RGB8Snorm | RGBA8Snorm
  | R8UI | RG8UI | RGB8UI | RGBA8UI
  | R8I | RG8I | RGB8I | RGBA8I
  | R16Unorm | RG16Unorm | RGB16Unorm | RGBA16Unorm
  | R16Snorm | RG16Snorm | RGB16Snorm | RGBA16Snorm
  | R16UI | RG16UI | RGB16UI | RGBA16UI
  | R16I | RG16I | RGB16I | RGBA16I
  | R32UI | RG32UI | RGB32UI | RGBA32UI
  | R32I | RG32I | RGB32I | RGBA32I
  | R16F | RG16F | RGB16F | RGBA16F
  | R32F | RG32F | RGB32F | RGBA32F
  deriving DecidableEq

/-- GL pixel format enumeration, Magnum::GL::PixelFormat, restricted to the
values appearing in the mapping table src/unnamed/part_001. -/
inductive GLPixelFormat where
  | Red | RG | RGB | RGBA
  | RedInteger | RGInteger | RGBInteger | RGBAInteger
  deriving DecidableEq

/-- GL pixel type enumeration, Magnum::GL::PixelType, restricted to the values
appearing in the mapping table src/unnamed/part_001. -/
inductive GLPixelType where
  | UnsignedByte | Byte | UnsignedShort | Short
  | UnsignedInt | Int | HalfFloat | Float
  deriving DecidableEq

/-- Modelled from the spec: the numeric value of each generic format
enumerator. Magnum/PixelFormat.h is absent from the snapshot; the spec states
the underlying numeric values are contiguous starting at a fixed base with no
gaps, in declaration order, and the scan in src/unnamed/part_000 fixes the base
at 0 (its nextHandled counter starts at 0). -/
def pixelFormatValue : PixelFormat → Nat
  | .R8Unorm => 0 | .RG8Unorm => 1 | .RGB8Unorm => 2 | .RGBA8Unorm => 3
  | .R8Snorm => 4 | .RG8Snorm => 5 | .RGB8Snorm => 6 | .RGBA8Snorm => 7
  | .R8UI => 8 | .RG8UI => 9 | .RGB8UI => 10 | .RGBA8UI => 11
  | .R8I => 12 | .RG8I => 13 | .RGB8I => 14 | .RGBA8I => 15
  | .R16Unorm => 16 | .RG16Unorm => 17 | .RGB16Unorm => 18 | .RGBA16Unorm => 19
  | .R16Snorm => 20 | .RG16Snorm => 21 | .RGB16Snorm => 22 | .RGBA16Snorm => 23
  | .R16UI => 24 | .RG16UI => 25 | .RGB16UI => 26 | .RGBA16UI => 27
  | .R16I => 28 | .RG16I => 29 | .RGB16I => 30 | .RGBA16I => 31
  | .R32UI => 32 | .RG32UI => 33 | .RGB32UI => 34 | .RGBA32UI => 35
  | .R32I => 36 | .RG32I => 37 | .RGB32I => 38 | .RGBA32I => 39
  | .R16F => 40 | .RG16F => 41 | .RGB16F => 42 | .RGBA16F => 43
  | .R32F => 44 | .RG32F => 45 | .RGB32F => 46 | .RGBA32F => 47

/-- All generic pixel format enumerators in declaration order. -/
def allPixelFormats : List PixelFormat :=
  [.R8Unorm, .RG8Unorm, .RGB8Unorm, .RGBA8Unorm,
   .R8Snorm, .RG8Snorm, .RGB8Snorm, .RGBA8Snorm,
   .R8UI, .RG8UI, .RGB8UI, .RGBA8UI,
   .R8I, .RG8I, .RGB8I, .RGBA8I,
   .R16Unorm, .RG16Unorm, .RGB16Unorm, .RGBA16Unorm,
   .R16Snorm, .RG16Snorm, .RGB16Snorm, .RGBA16Snorm,
   .R16UI, .RG16UI, .RGB16UI, .RGBA16UI,
   .R16I, .RG16I, .RGB16I, .RGBA16I,
   .R32UI, .RG32UI, .RGB32UI, .RGBA32UI,
   .R32I, .RG32I, .RGB32I, .RGBA32I,
   .R16F, .RG16F, .RGB16F, .RGBA16F,
   .R32F, .RG32F, .RGB32F, .RGBA32F]

/-- The generic-to-GL mapping table, entry for entry from
src/unnamed/part_001 (Magnum/GL/Implementation/pixelFormatMapping.hpp):
each row is one _c(format, expectedFormat, expectedType) line. -/
def pixelFormatMappingTable : List (PixelFormat × GLPixelFormat × GLPixelType) :=
  [(.R8Unorm, .Red, .UnsignedByte),
   (.RG8Unorm, .RG, .UnsignedByte),
   (.RGB8Unorm, .RGB, .UnsignedByte),
   (.RGBA8Unorm, .RGBA, .UnsignedByte),
   (.R8Snorm, .Red, .Byte),
   (.RG8Snorm, .RG, .Byte),
   (.RGB8Snorm, .RGB, .Byte),
   (.RGBA8Snorm, .RGBA, .Byte),
   (.R8UI, .RedInteger, .UnsignedByte),
   (.RG8UI, .RGInteger, .UnsignedByte),
   (.RGB8UI, .RGBInteger, .UnsignedByte),
   (.RGBA8UI, .RGBAInteger, .UnsignedByte),
   (.R8I, .RedInteger, .Byte),
   (.RG8I, .RGInteger, .Byte),
   (.RGB8I, .RGBInteger, .Byte),
   (.RGBA8I, .RGBAInteger, .Byte),
   (.R16Unorm, .Red, .UnsignedShort),
   (.RG16Unorm, .RG, .UnsignedShort),
   (.RGB16Unorm, .RGB, .UnsignedShort),
   (.RGBA16Unorm, .RGBA, .UnsignedShort),
   (.R16Snorm, .Red, .Short),
   (.RG16Snorm, .RG, .Short),
   (.RGB16Snorm, .RGB, .Short),
   (.RGBA16Snorm, .RGBA, .Short),
   (.R16UI, .RedInteger, .UnsignedShort),
   (.RG16UI, .RGInteger, .UnsignedShort),
   (.RGB16UI, .RGBInteger, .UnsignedShort),
   (.RGBA16UI, .RGBAInteger, .UnsignedShort),
   (.R16I, .RedInteger, .Short),
   (.RG16I, .RGInteger, .Short),
   (.RGB16I, .RGBInteger, .Short),
   (.RGBA16I, .RGBAInteger, .Short),
   (.R32UI, .RedInteger, .UnsignedInt),
   (.RG32UI, .RGInteger, .UnsignedInt),
   (.RGB32UI, .RGBInteger, .UnsignedInt),
   (.RGBA32UI, .RGBAInteger, .UnsignedInt),
   (.R32I, .RedInteger, .Int),
   (.RG32I, .RGInteger, .Int),
   (.RGB32I, .RGBInteger, .Int),
   (.RGBA32I, .RGBAInteger, .Int),
   (.R16F, .Red, .HalfFloat),
   (.RG16F, .RG, .HalfFloat),
   (.RGB16F, .RGB, .HalfFloat),
   (.RGBA16F, .RGBA, .HalfFloat),
   (.R32F, .Red, .Float),
   (.RG32F, .RG, .Float),
   (.RGB32F, .RGB, .Float),
   (.RGBA32F, .RGBA, .Float)]

/-- Decoding of an integer code into a generic format enumerator: the inverse
of pixelFormatValue, defined over the enumerator list. -/
def pixelFormatOfCode (i : Nat) : Option PixelFormat :=
  allPixelFormats.find? (fun f => pixelFormatValue f == i)

/-- Modelled from the spec: Magnum::GL::pixelFormat (GL/PixelFormat.cpp is
absent from the snapshot); a table-driven lookup over the mapping table of
src/unnamed/part_001, defined only on the closed generic enumeration. -/
def glPixelFormat (f : PixelFormat) : Option GLPixelFormat :=
  (pixelFormatMappingTable.find? (fun r => r.1 == f)).map (fun r => r.2.1)

/-- Modelled from the spec: Magnum::GL::pixelType, as glPixelFormat. -/
def glPixelType (f : PixelFormat) : Option GLPixelType :=
  (pixelFormatMappingTable.find? (fun r => r.1 == f)).map (fun r => r.2.2)

/-- The format-mapping function on raw integer codes: codes outside the
enumeration decode to none and are therefore unhandled. -/
def glPixelFormatOfCode (i : Nat) : Option GLPixelFormat :=
  (pixelFormatOfCode i).bind glPixelFormat

/-- The type-mapping function on raw integer codes. -/
def glPixelTypeOfCode (i : Nat) : Option GLPixelType :=
  (pixelFormatOfCode i).bind glPixelType

/-- Modelled from the spec: Magnum::pixelFormatWrap (Magnum/PixelFormat.h is
absent from the snapshot). Fails with InvalidArgument (none) when the native
code has its high bit set, i.e. is at least 2 to the 31; otherwise returns the
value with the tag bit (bit 31) set and the low 31 bits equal to the code. -/
def pixelFormatWrap (n : Nat) : Option Nat :=
  if n < 2 ^ 31 then some (2 ^ 31 + n) else none

/-- Modelled from the spec: Magnum::pixelFormatUnwrap. Fails with
InvalidArgument (none) when the tag bit of the identifier is unset; otherwise
strips the tag and returns the low 31 bits unchanged. -/
def pixelFormatUnwrap (c : Nat) : Option Nat :=
  if 2 ^ 31 ≤ c then some (c - 2 ^ 31) else none

/-- Modelled from the spec: Magnum::isPixelFormatImplementationSpecific is
true iff the tag bit (bit 31) is set. -/
def isPixelFormatImplementationSpecific (c : Nat) : Bool :=
  decide (2 ^ 31 ≤ c)

/-- Modelled from the spec: Magnum::compressedPixelFormatWrap, a separate
instance of the same encoding contract for the compressed enumeration. -/
def compressedPixelFormatWrap (n : Nat) : Option Nat :=
  if n < 2 ^ 31 then some (2 ^ 31 + n) else none

/-- Modelled from the spec: Magnum::compressedPixelFormatUnwrap. -/
def compressedPixelFormatUnwrap (c : Nat) : Option Nat :=
  if 2 ^ 31 ≤ c then some (c - 2 ^ 31) else none

/-- Modelled from the spec: Magnum::isCompressedPixelFormatImplementationSpecific. -/
def isCompressedPixelFormatImplementationSpecific (c : Nat) : Bool :=
  decide (2 ^ 31 ≤ c)

/-- Modelled from the spec: channel count of a generic format, decoded from
the naming scheme (R = 1, RG = 2, RGB = 3, RGBA = 4). -/
def channelCount : PixelFormat → Nat
  | .R8Unorm | .R8Snorm | .R8UI | .R8I
  | .R16Unorm | .R16Snorm | .R16UI | .R16I
  | .R32UI | .R32I | .R16F | .R32F => 1
  | .RG8Unorm | .RG8Snorm | .RG8UI | .RG8I
  | .RG16Unorm | .RG16Snorm | .RG16UI | .RG16I
  | .RG32UI | .RG32I | .RG16F | .RG32F => 2
  | .RGB8Unorm | .RGB8Snorm | .RGB8UI | .RGB8I
  | .RGB16Unorm | .RGB16Snorm | .RGB16UI | .RGB16I
  | .RGB32UI | .RGB32I | .RGB16F | .RGB32F => 3
  | .RGBA8Unorm | .RGBA8Snorm | .RGBA8UI | .RGBA8I
  | .RGBA16Unorm | .RGBA16Snorm | .RGBA16UI | .RGBA16I
  | .RGBA32UI | .RGBA32I | .RGBA16F | .RGBA32F => 4

/-- Modelled from the spec: component width in bytes of a generic format,
decoded from the naming scheme (8-bit = 1, 16-bit = 2, 32-bit = 4). -/
def componentBytes : PixelFormat → Nat
  | .R8Unorm | .RG8Unorm | .RGB8Unorm | .RGBA8Unorm
  | .R8Snorm | .RG8Snorm | .RGB8Snorm | .RGBA8Snorm
  | .R8UI | .RG8UI | .RGB8UI | .RGBA8UI
  | .R8I | .RG8I | .RGB8I | .RGBA8I => 1
  | .R16Unorm | .RG16Unorm | .RGB16Unorm | .RGBA16Unorm
  | .R16Snorm | .RG16Snorm | .RGB16Snorm | .RGBA16Snorm
  | .R16UI | .RG16UI | .RGB16UI | .RGBA16UI
  | .R16I | .RG16I | .RGB16I | .RGBA16I
  | .R16F | .RG16F | .RGB16F | .RGBA16F => 2
  | .R32UI | .RG32UI | .RGB32UI | .RGBA32UI
  | .R32I | .RG32I | .RGB32I | .RGBA32I
  | .R32F | .RG32F | .RGB32F | .RGBA32F => 4

/-- Modelled from the spec: Magnum::pixelSize on an enumerated generic format:
bytes per pixel, derived from the channel count and the component width of the
format. -/
def pixelSize (f : PixelFormat) : Nat :=
  channelCount f * componentBytes f

/-- Modelled from the spec: Magnum::pixelSize on a raw format identifier.
Fails with InvalidArgument (none) on an implementation-specific (wrapped)
identifier; undefined (none) outside the closed generic enumeration. -/
def pixelSizeOfCode (c : Nat) : Option Nat :=
  if 2 ^ 31 ≤ c then none else (pixelFormatOfCode c).map pixelSize

/-- Modelled from the spec: the storage configuration Magnum::PixelStorage
(Magnum/PixelStorage.h is absent from the snapshot): row alignment in bytes,
optional explicit row length in pixels (0 = use image width), optional image
height (0 = use image height from the size), and a 3-component skip offset in
pixels. -/
structure PixelStorage where
  alignment : Nat
  rowLength : Nat
  imageHeight : Nat
  skipX : Nat
  skipY : Nat
  skipZ : Nat
  deriving DecidableEq

/-- Round n up to the next multiple of a (a row padded to the alignment
boundary). -/
def alignUp (n a : Nat) : Nat :=
  if a = 0 then n else (n + a - 1) / a * a

/-- Modelled from the spec: Implementation::imageDataSize, the minimum byte
size required by the layout arithmetic for a storage configuration, a pixel
size in bytes and an image size (sx, sy, sz; absent dimensions are 1). Rows
are padded to the configured alignment, the configured row length and image
height substitute the image size where nonzero, the skip offset is counted in
front, and a pixel size of zero degenerates to zero (size validation is then
skipped). -/
def imageDataSize (st : PixelStorage) (pxSize sx sy sz : Nat) : Nat :=
  if pxSize = 0 then 0 else
  let rowLengthPx := if st.rowLength = 0 then sx else st.rowLength
  let rowStride := alignUp (rowLengthPx * pxSize) st.alignment
  let height := if st.imageHeight = 0 then sy else st.imageHeight
  let offset := st.skipZ * rowStride * height + st.skipY * rowStride +
    st.skipX * pxSize
  if sx * sy * sz = 0 then offset else offset + rowStride * height * sz

/-- Buffer check of the ImageView data constructor, from the appended
ImageView.cpp translation unit (src/src/Magnum/Image.h lines 727 to 729): the
assert condition is that the data view is null or the computed data size fits
into it. -/
def imageViewCtorOk (st : PixelStorage) (pxSize sx sy sz len : Nat) : Bool :=
  (len == 0) || decide (imageDataSize st pxSize sx sy sz ≤ len)

/-- Buffer check of ImageView::setData, from the appended ImageView.cpp
translation unit (src/src/Magnum/Image.h lines 731 to 734): the assert
condition is only that the computed data size fits into the new data; there is
no null-data escape. -/
def imageViewSetDataOk (st : PixelStorage) (pxSize sx sy sz len : Nat) : Bool :=
  decide (imageDataSize st pxSize sx sy sz ≤ len)

/-- Buffer check of the owning Image data constructors, from the appended
Image.cpp translation unit (src/src/Magnum/Test/PixelFormatTest.cpp lines 220
to 226): the assert condition is only that the computed data size fits into
the data; there is no null-data escape. -/
def imageCtorOk (st : PixelStorage) (pxSize sx sy sz len : Nat) : Bool :=
  decide (imageDataSize st pxSize sx sy sz ≤ len)

/-- A concrete storage configuration for the examples: alignment 4 (the
common native-API default named by the spec), no explicit row length or image
height, no skip. -/
def plainStorage : PixelStorage := ⟨4, 0, 0, 0, 0, 0⟩

/-- The owning image container Magnum::Image (src/src/Magnum/Image.h lines
400 to 407): storage, format identifier, extra format specifier, resolved
pixel size, size vector and owned byte buffer. The size vector is kept as a
triple of integers (Math::Vector of Int); the buffer as its list of bytes. -/
structure Image where
  storage : PixelStorage
  format : Nat
  formatExtra : Nat
  pixelSize : Nat
  size : Int × Int × Int
  data : List Nat
  deriving DecidableEq

/-- The owning compressed image container Magnum::CompressedImage
(src/src/Magnum/Image.h lines 596 to 607): storage, format identifier, size
vector and owned byte buffer. The fields of CompressedPixelStorage are not in
the snapshot; only the identity of the value matters here, so the uncompressed
storage record stands in for it. -/
structure CompressedImage where
  storage : PixelStorage
  format : Nat
  size : Int × Int × Int
  data : List Nat
  deriving DecidableEq

/-- Image::release (src/src/Magnum/Image.h lines 657 to 661): moves the data
array out (the moved-from array is empty) and resets the size vector; all
other fields are left untouched. Returns the released buffer and the new
state. -/
def Image.release (img : Image) : List Nat × Image :=
  (img.data, { img with size := (0, 0, 0), data := [] })

/-- CompressedImage::release (src/src/Magnum/Image.h lines 663 to 667). -/
def CompressedImage.release (img : CompressedImage) : List Nat × CompressedImage :=
  (img.data, { img with size := (0, 0, 0), data := [] })

/-- The empty placeholder state of a container: zero size and no data. This is
how the spec characterises the state produced by default construction. -/
def Image.isEmptyPlaceholder (img : Image) : Prop :=
  img.size = (0, 0, 0) ∧ img.data = []

/-- The empty placeholder state of a compressed container. -/
def CompressedImage.isEmptyPlaceholder (img : CompressedImage) : Prop :=
  img.size = (0, 0, 0) ∧ img.data = []

/-- The Image move constructor (src/src/Magnum/Image.h lines 618 to 620):
the target takes every field of the source; the source keeps its scalar
fields, its size vector is reset and its moved-from data array is empty.
Returns the move target and the moved-from source. -/
def Image.moveFrom (a : Image) : Image × Image :=
  (a, { a with size := (0, 0, 0), data := [] })

/-- The CompressedImage move constructor (src/src/Magnum/Image.h lines 622 to
625). -/
def CompressedImage.moveFrom (a : CompressedImage) : CompressedImage × CompressedImage :=
  (a, { a with size := (0, 0, 0), data := [] })

/-- Expected value asserted by the test PixelFormatTest::wrap
(src/src/Magnum/Test/PixelFormatTest.cpp line 101):
CORRADE_COMPARE(UnsignedInt(pixelFormatWrap(0xdead)), 0x800dead). -/
def wrapTestExpected : Nat := 0x800dead

/-- Input and expected value asserted by the test PixelFormatTest::unwrap
(src/src/Magnum/Test/PixelFormatTest.cpp line 114):
CORRADE_COMPARE(UnsignedInt(pixelFormatUnwrap(PixelFormat(0x800dead))), 0xdead). -/
def unwrapTestInput : Nat := 0x800dead

/-- One case of the switch generated in PixelFormatTest::mapFormatType
(src/unnamed/part_000 lines 82 to 89) for the table row r at loop index i with
counters nextHandled and firstUnhandled: the case body runs
CORRADE_COMPARE(nextHandled, i), CORRADE_COMPARE(firstUnhandled, 0xffffffff),
and compares the mapped GL format and type against the expected entries of the
row. -/
def mapFormatTypeCase (i nextHandled firstUnhandled : Nat)
    (r : PixelFormat × GLPixelFormat × GLPixelType) : Bool :=
  (nextHandled == i) && (firstUnhandled == 0xffffffff) &&
  (glPixelFormat r.1 == some r.2.1) && (glPixelType r.1 == some r.2.2)

/-- The loop of PixelFormatTest::mapFormatType (src/unnamed/part_000 lines 71
to 100), with fuel counting the remaining iterations of
for(UnsignedInt i = 0; i != 0x7fffffff; ++i). A handled index (one whose code
is a case of the switch, i.e. decodes through the mapping table) runs the case
checks, increments nextHandled and continues; an unhandled index records
firstUnhandled = i. A failed CORRADE_COMPARE ends the test as failed. After
the loop, CORRADE_COMPARE(firstUnhandled, 0x7fffffff) runs. -/
def mapFormatTypeRun : Nat → Nat → Nat → Nat → Bool
  | 0, _, _, firstUnhandled => firstUnhandled == 0x7fffffff
  | fuel + 1, i, nextHandled, firstUnhandled =>
    match pixelFormatMappingTable.find? (fun r => pixelFormatValue r.1 == i) with
    | some r =>
      if mapFormatTypeCase i nextHandled firstUnhandled r then
        mapFormatTypeRun fuel (i + 1) (nextHandled + 1) firstUnhandled
      else false
    | none => mapFormatTypeRun fuel (i + 1) nextHandled i

/-- The outcome of PixelFormatTest::mapFormatType: the loop starts at i = 0
with nextHandled = 0 and firstUnhandled initialised to 0x7fffffff
(src/unnamed/part_000 lines 71 to 72). -/
def mapFormatTypeResult : Bool :=
  mapFormatTypeRun 0x7fffffff 0 0 0x7fffffff

/-- Parameter names of the convenience constructor
template<class T> Image(T format) of src/src/Magnum/Image.h line 260. -/
def imageFormatOnlyCtorParams : List String := ["format"]

/-- Identifiers passed by that constructor to its delegated-to constructor in
src/src/Magnum/Image.h line 260, after the default-constructed storage:
Image(..., format, formatExtra). -/
def imageFormatOnlyCtorInitArgs : List String := ["format", "formatExtra"]

/-- Identifier arguments its documentation comment (src/src/Magnum/Image.h
lines 253 to 259, equivalent to Image(PixelStorage, T) with default
constructed PixelStorage) requires it to pass. -/
def imageFormatOnlyCtorDocArgs : List String := ["format"]

/-- Parameter names of the convenience constructor
template<class T, class U> ImageView(T format, size) of src/unnamed/part_003
line 320. -/
def imageViewFormatSizeCtorParams : List String := ["format", "size"]

/-- Identifiers passed by that constructor to its delegated-to constructor in
src/unnamed/part_003 line 320, after the default-constructed storage:
ImageView(..., format, size, data). -/
def imageViewFormatSizeCtorInitArgs : List String := ["format", "size", "data"]

/-- Identifier arguments its documentation comment (src/unnamed/part_003
lines 312 to 319, equivalent to ImageView(PixelStorage, T, size) with default
constructed PixelStorage) requires it to pass. -/
def imageViewFormatSizeCtorDocArgs : List String := ["format", "size"]

/-- Every generic format enumerator has a code below 48. -/
theorem pixelFormatValue_lt (f : PixelFormat) : pixelFormatValue f < 48 := by
  cases f <;> decide

/-- Claim C1: the generic uncompressed pixel-format enumeration and its
mapping table are exhaustive and contiguous — the defined codes are exactly 0
to 47, each enumerator appears exactly once, in strictly increasing order with
no gaps, the table covers the enumeration once in the same order, and every
other code in the 31-bit non-tagged range is unhandled by the mapping
functions. The exhaustive scan PixelFormatTest::mapFormatType of
src/unnamed/part_000, however, evaluates to failure even on this correct
enumeration: its sentinel is initialised to 0x7fffffff but compared against
0xffffffff inside every handled case, and its final comparison expects
0x7fffffff where the loop leaves the last unhandled index 0x7ffffffe. -/
theorem C1_mapping_contiguous_and_scan_fails :
    allPixelFormats.map pixelFormatValue = List.range 48 ∧
    allPixelFormats.Nodup ∧
    pixelFormatMappingTable.map Prod.fst = allPixelFormats ∧
    (∀ i : Nat, 48 ≤ i →
      pixelFormatOfCode i = none ∧ glPixelFormatOfCode i = none ∧
      glPixelTypeOfCode i = none) ∧
    mapFormatTypeResult = false := by
  refine ⟨by decide, by decide, by decide, ?_, by decide⟩
  intro i h
  have hnone : pixelFormatOfCode i = none := by
    unfold pixelFormatOfCode
    refine List.find?_eq_none.mpr ?_
    intro f _
    have hf : pixelFormatValue f < 48 := pixelFormatValue_lt f
    simp only [beq_iff_eq]
    omega
  exact ⟨hnone, by simp [glPixelFormatOfCode, hnone],
    by simp [glPixelTypeOfCode, hnone]⟩

/-- Claim C1 witness: code 1000 lies outside the enumeration and is unhandled
by both mapping functions. -/
theorem C1_mapping_contiguous_and_scan_fails_witness :
    pixelFormatOfCode 1000 = none ∧ glPixelFormatOfCode 1000 = none ∧
    glPixelTypeOfCode 1000 = none :=
  C1_mapping_contiguous_and_scan_fails.2.2.2.1 1000 (by decide)

/-- Claim C2: wrapping the native code 0xdead produces the identifier
0x8000dead, whose bit 31 (the tag) is set and whose low 31 bits are 0xdead —
but the expectation constant of the test PixelFormatTest::wrap,
0x800dead, has bit 31 clear and low 31 bits 0x800dead, so the test
contradicts the specified (and claimed) encoding; the constant is the
specified value with one zero digit dropped. -/
theorem C2_wrap_sets_top_bit_but_test_expects_other :
    pixelFormatWrap 0xdead = some 0x8000dead ∧
    Nat.testBit 0x8000dead 31 = true ∧
    0x8000dead % 2 ^ 31 = 0xdead ∧
    Nat.testBit wrapTestExpected 31 = false ∧
    wrapTestExpected % 2 ^ 31 ≠ 0xdead ∧
    pixelFormatWrap 0xdead ≠ some wrapTestExpected := by decide

/-- Claim C3: for every native code below 2 to the 31, unwrap inverts wrap,
the wrapped identifier is implementation-specific, the bare code is not, and
the same holds for the separate compressed wrap/unwrap pair. -/
theorem C3_wrap_unwrap_round_trip (n : Nat) (h : n < 2 ^ 31) :
    (pixelFormatWrap n).bind pixelFormatUnwrap = some n ∧
    (pixelFormatWrap n).map isPixelFormatImplementationSpecific = some true ∧
    isPixelFormatImplementationSpecific n = false ∧
    (compressedPixelFormatWrap n).bind compressedPixelFormatUnwrap = some n ∧
    (compressedPixelFormatWrap n).map
      isCompressedPixelFormatImplementationSpecific = some true ∧
    isCompressedPixelFormatImplementationSpecific n = false := by
  have h0 : n < 2147483648 := by norm_num at h; exact h
  have h1 : (2147483648 : Nat) ≤ 2147483648 + n := Nat.le_add_right _ _
  have h2 : ¬ (2147483648 : Nat) ≤ n := Nat.not_le.mpr h0
  simp [pixelFormatWrap, pixelFormatUnwrap, isPixelFormatImplementationSpecific,
    compressedPixelFormatWrap, compressedPixelFormatUnwrap,
    isCompressedPixelFormatImplementationSpecific, h0, h1, h2]

/-- Claim C3 witness: the round trip at the native code 0xdead. -/
theorem C3_wrap_unwrap_round_trip_witness :
    (pixelFormatWrap 0xdead).bind pixelFormatUnwrap = some 0xdead ∧
    (pixelFormatWrap 0xdead).map isPixelFormatImplementationSpecific = some true ∧
    isPixelFormatImplementationSpecific 0xdead = false ∧
    (compressedPixelFormatWrap 0xdead).bind compressedPixelFormatUnwrap =
      some 0xdead ∧
    (compressedPixelFormatWrap 0xdead).map
      isCompressedPixelFormatImplementationSpecific = some true ∧
    isCompressedPixelFormatImplementationSpecific 0xdead = false :=
  C3_wrap_unwrap_round_trip 0xdead (by decide)

/-- Claim C4 counterexample: an empty buffer is not always accepted. For a
placeholder with pixel size 4 (RGBA8Unorm) and size 1x1, the computed data
size is 4, and both the owning Image constructor check and the
ImageView::setData check reject an empty buffer, since neither assert has the
null-data escape of the ImageView data constructor. -/
theorem C4_empty_buffer_rejected :
    imageDataSize plainStorage 4 1 1 1 = 4 ∧
    imageCtorOk plainStorage 4 1 1 1 0 = false ∧
    imageViewSetDataOk plainStorage 4 1 1 1 0 = false := by decide

/-- Claim C4 as amended: with a non-empty buffer, all three checks succeed
exactly when the buffer length reaches the computed byte size (for a 3x3
RGB8Unorm image with 4-byte row alignment the minimum is 36: exactly 36
succeeds, 35 fails, 37 succeeds); an empty buffer is always accepted by the
ImageView data constructor, while the owning Image constructor and
ImageView::setData validate even an empty buffer and accept it only when the
computed size is zero. -/
theorem C4_buffer_size_validation :
    (∀ st : PixelStorage, ∀ pxSize sx sy sz len : Nat, 0 < len →
      (imageViewCtorOk st pxSize sx sy sz len = true ↔
        imageDataSize st pxSize sx sy sz ≤ len) ∧
      (imageCtorOk st pxSize sx sy sz len = true ↔
        imageDataSize st pxSize sx sy sz ≤ len) ∧
      (imageViewSetDataOk st pxSize sx sy sz len = true ↔
        imageDataSize st pxSize sx sy sz ≤ len)) ∧
    (∀ st : PixelStorage, ∀ pxSize sx sy sz : Nat,
      imageViewCtorOk st pxSize sx sy sz 0 = true) ∧
    (∀ st : PixelStorage, ∀ pxSize sx sy sz : Nat,
      (imageCtorOk st pxSize sx sy sz 0 = true ↔
        imageDataSize st pxSize sx sy sz = 0) ∧
      (imageViewSetDataOk st pxSize sx sy sz 0 = true ↔
        imageDataSize st pxSize sx sy sz = 0)) ∧
    imageDataSize plainStorage 3 3 3 1 = 36 ∧
    imageViewCtorOk plainStorage 3 3 3 1 36 = true ∧
    imageViewCtorOk plainStorage 3 3 3 1 35 = false ∧
    imageViewCtorOk plainStorage 3 3 3 1 37 = true ∧
    imageCtorOk plainStorage 3 3 3 1 36 = true ∧
    imageCtorOk plainStorage 3 3 3 1 35 = false ∧
    imageViewSetDataOk plainStorage 3 3 3 1 36 = true ∧
    imageViewSetDataOk plainStorage 3 3 3 1 35 = false := by
  refine ⟨?_, ?_, ?_, by decide, by decide, by decide, by decide, by decide,
    by decide, by decide, by decide⟩
  · intro st pxSize sx sy sz len hlen
    have hne : (len == 0) = false := by
      simp only [beq_eq_false_iff_ne, ne_eq]
      omega
    simp [imageViewCtorOk, imageCtorOk, imageViewSetDataOk, hne]
  · intro st pxSize sx sy sz
    simp [imageViewCtorOk]
  · intro st pxSize sx sy sz
    simp [imageCtorOk, imageViewSetDataOk, Nat.le_zero]

/-- Claim C4 witness: the amended statement applied at the 3x3 RGB8Unorm
example with the minimum buffer of 36 bytes. -/
theorem C4_buffer_size_validation_witness :
    imageViewCtorOk plainStorage 3 3 3 1 36 = true :=
  (C4_buffer_size_validation.1 plainStorage 3 3 3 1 36 (by decide)).1.mpr
    (by decide)

/-- Claim C5: pixel size over generic formats is the channel count times the
component width — 3 bytes for RGB8Unorm, 8 bytes for RGBA16F — and pixel size
applied to the wrapped implementation-specific identifier produced by
pixelFormatWrap(0xdead) fails. -/
theorem C5_pixelSize_values :
    pixelSizeOfCode (pixelFormatValue .RGB8Unorm) = some 3 ∧
    pixelSize .RGB8Unorm = 3 ∧
    pixelSizeOfCode (pixelFormatValue .RGBA16F) = some 8 ∧
    pixelSize .RGBA16F = 8 ∧
    pixelFormatWrap 0xdead = some 0x8000dead ∧
    pixelSizeOfCode 0x8000dead = none := by decide

/-- Claim C6: the mapping functions satisfy the reference examples of the
table in src/unnamed/part_001: RGBA8Unorm maps to the GL RGBA format with the
UnsignedByte type, RGBA32F to the GL RGBA format with the Float type. -/
theorem C6_mapping_reference_examples :
    glPixelFormat .RGBA8Unorm = some .RGBA ∧
    glPixelType .RGBA8Unorm = some .UnsignedByte ∧
    glPixelFormat .RGBA32F = some .RGBA ∧
    glPixelType .RGBA32F = some .Float := by decide

/-- Claim C7: wrap fails exactly on inputs with the high bit set, such as
0xdeadbeef, and unwrap fails exactly on inputs with the tag bit unset, such as
0xdead — as the claim states. The test PixelFormatTest::unwrap, however,
feeds unwrap the input 0x800dead, whose tag bit is also unset, and expects it
to succeed with 0xdead: the modelled unwrap refuses that input, and likewise
the compressed one, so the test constant (a zero digit short of 0x8000dead)
contradicts the claimed exact failure condition. -/
theorem C7_wrap_unwrap_failure_conditions :
    (∀ n : Nat, n < 2 ^ 32 →
      ((pixelFormatWrap n = none ↔ 2 ^ 31 ≤ n) ∧
       (pixelFormatUnwrap n = none ↔ n < 2 ^ 31) ∧
       (compressedPixelFormatWrap n = none ↔ 2 ^ 31 ≤ n) ∧
       (compressedPixelFormatUnwrap n = none ↔ n < 2 ^ 31))) ∧
    pixelFormatWrap 0xdeadbeef = none ∧
    pixelFormatUnwrap 0xdead = none ∧
    compressedPixelFormatWrap 0xdeadbeef = none ∧
    compressedPixelFormatUnwrap 0xdead = none ∧
    isPixelFormatImplementationSpecific unwrapTestInput = false ∧
    pixelFormatUnwrap unwrapTestInput = none ∧
    compressedPixelFormatUnwrap unwrapTestInput = none := by
  refine ⟨?_, by decide, by decide, by decide, by decide, by decide,
    by decide, by decide⟩
  intro n _
  simp [pixelFormatWrap, pixelFormatUnwrap, compressedPixelFormatWrap,
    compressedPixelFormatUnwrap, Nat.not_lt, Nat.not_le]

/-- Claim C7 witness: the exact failure conditions applied at 0xdeadbeef. -/
theorem C7_wrap_unwrap_failure_conditions_witness :
    pixelFormatWrap 0xdeadbeef = none ↔ 2 ^ 31 ≤ 0xdeadbeef :=
  (C7_wrap_unwrap_failure_conditions.1 0xdeadbeef (by decide)).1

/-- Claim C8: for every owning Image or CompressedImage, release() hands the
buffer out with its original contents and original length, resets the size to
the zero vector and leaves the container in the empty placeholder state that
default construction produces (zero size, no data); a second release() yields
an already-empty buffer rather than an error. -/
theorem C8_release_resets_to_placeholder (img : Image) (cimg : CompressedImage) :
    (Image.release img).1 = img.data ∧
    ((Image.release img).1).length = img.data.length ∧
    (Image.release img).2.size = (0, 0, 0) ∧
    (Image.release img).2.isEmptyPlaceholder ∧
    ((Image.release img).2.release).1 = [] ∧
    (CompressedImage.release cimg).1 = cimg.data ∧
    ((CompressedImage.release cimg).1).length = cimg.data.length ∧
    (CompressedImage.release cimg).2.size = (0, 0, 0) ∧
    (CompressedImage.release cimg).2.isEmptyPlaceholder ∧
    ((CompressedImage.release cimg).2.release).1 = [] :=
  ⟨rfl, rfl, rfl, ⟨rfl, rfl⟩, rfl, rfl, rfl, rfl, ⟨rfl, rfl⟩, rfl⟩

/-- Claim C8 witness: release on a concrete 2x1 image with two data bytes. -/
theorem C8_release_resets_to_placeholder_witness :
    (Image.release ⟨plainStorage, 2, 0, 3, (2, 1, 1), [10, 20]⟩).1 = [10, 20] ∧
    (Image.release ⟨plainStorage, 2, 0, 3, (2, 1, 1), [10, 20]⟩).2.size =
      (0, 0, 0) :=
  ⟨(C8_release_resets_to_placeholder ⟨plainStorage, 2, 0, 3, (2, 1, 1), [10, 20]⟩
      ⟨plainStorage, 5, (1, 1, 1), [9]⟩).1,
   (C8_release_resets_to_placeholder ⟨plainStorage, 2, 0, 3, (2, 1, 1), [10, 20]⟩
      ⟨plainStorage, 5, (1, 1, 1), [9]⟩).2.2.1⟩

/-- Claim C9: after move-constructing B from owning container A, A has the
zero size vector and an empty buffer, while B holds every field of A — its
storage, format, size and data — unchanged. -/
theorem C9_move_semantics (a : Image) (c : CompressedImage) :
    (Image.moveFrom a).1 = a ∧
    (Image.moveFrom a).1.storage = a.storage ∧
    (Image.moveFrom a).1.format = a.format ∧
    (Image.moveFrom a).1.size = a.size ∧
    (Image.moveFrom a).1.data = a.data ∧
    (Image.moveFrom a).2.size = (0, 0, 0) ∧
    (Image.moveFrom a).2.data = [] ∧
    (CompressedImage.moveFrom c).1 = c ∧
    (CompressedImage.moveFrom c).2.size = (0, 0, 0) ∧
    (CompressedImage.moveFrom c).2.data = [] :=
  ⟨rfl, rfl, rfl, rfl, rfl, rfl, rfl, rfl, rfl, rfl⟩

/-- Claim C9 witness: the move at a concrete image with one data byte. -/
theorem C9_move_semantics_witness :
    (Image.moveFrom ⟨plainStorage, 3, 0, 3, (1, 1, 1), [42]⟩).1 =
      ⟨plainStorage, 3, 0, 3, (1, 1, 1), [42]⟩ ∧
    (Image.moveFrom ⟨plainStorage, 3, 0, 3, (1, 1, 1), [42]⟩).2.data = [] :=
  ⟨(C9_move_semantics ⟨plainStorage, 3, 0, 3, (1, 1, 1), [42]⟩
      ⟨plainStorage, 6, (1, 1, 1), [8]⟩).1,
   (C9_move_semantics ⟨plainStorage, 3, 0, 3, (1, 1, 1), [42]⟩
      ⟨plainStorage, 6, (1, 1, 1), [8]⟩).2.2.2.2.2.2.1⟩

/-- Claim C10: the storage-omitting convenience constructors are not the
documented delegations. Image(T format) at src/src/Magnum/Image.h line 260
passes the identifier formatExtra, which is not among its parameters (and not
what its documentation, Image(PixelStorage, T), requires), and
ImageView(T format, size) at src/unnamed/part_003 line 320 passes the
identifier data, which is not among its parameters either. -/
theorem C10_convenience_ctor_delegation_mismatch :
    ("formatExtra" ∈ imageFormatOnlyCtorInitArgs ∧
     "formatExtra" ∉ imageFormatOnlyCtorParams ∧
     imageFormatOnlyCtorInitArgs ≠ imageFormatOnlyCtorDocArgs) ∧
    ("data" ∈ imageViewFormatSizeCtorInitArgs ∧
     "data" ∉ imageViewFormatSizeCtorParams ∧
     imageViewFormatSizeCtorInitArgs ≠ imageViewFormatSizeCtorDocArgs) := by
  decide
